import Mathlib

/-!
Shallow embedding of `scripts/convert_poems_to_sqlite.py`, the single source
file of the poetica repository, together with proofs of the specification's
claims about it.

The script reads a JSON document of poem collections, flattens it into rows
of one SQLite table `poems` (text primary key `id`), and reports aggregate
statistics. The embedding models:

* valid input documents (the shape given in the spec: a top-level optional
  `collections` list of collection objects, each with an optional `poems`
  list of poem objects whose five fields are optional strings);
* the SQLite table as a list of rows, with `INSERT` failing on a duplicate
  primary key (sqlite3 raises `IntegrityError`, there is no upsert clause);
* the environment-dependent failure points of the write phase
  (`os.remove`, `sqlite3.connect`, schema creation, `conn.commit`,
  `os.path.getsize`) as boolean flags, so that every exception path of the
  Python function is a reachable branch of the model;
* the connection handle's opened/closed state and the durable (committed)
  content of the output file on every path, including the rollback that
  `conn.close()` performs on an uncommitted transaction;
* the `except` handlers of `create_poems_database` (lines 30-32 and
  131-135 of the script), which catch every exception and return `False`,
  closing the connection when one was opened;
* the statistics report. Note a genuine quirk: on an empty table
  `SELECT AVG(LENGTH(content))` yields SQL NULL, i.e. Python `None`, and
  line 124 formats it with `f"{avg_content_length:.0f}"`, which raises
  `TypeError`; the model represents this as the `typeError` exception
  raised exactly when the computed average is `none`.
-/

namespace Poetica

/-- A poem object of the input JSON: all five fields are optional text,
matching `poem.get('id', '')` etc. in the script. -/
structure Poem where
  id? : Option String
  title? : Option String
  author? : Option String
  text? : Option String
  first_line? : Option String
deriving DecidableEq, Repr

/-- A collection object of the input JSON: `collection.get('name', ...)`
and `collection.get('poems', [])` read two optional fields. -/
structure Collection where
  name? : Option String
  poems? : Option (List Poem)
deriving DecidableEq, Repr

/-- A valid input document: the top level optionally holds a `collections`
list (`if 'collections' in data`). -/
structure Document where
  collections? : Option (List Collection)
deriving DecidableEq, Repr

/-- The state of the input path as seen by the script: missing file,
present but not valid JSON, or a parsed valid document. -/
inductive InputFile where
  | missing
  | malformed
  | valid (d : Document)
deriving DecidableEq, Repr

/-- The Python exceptions that can arise in the modelled code paths. -/
inductive PyExn where
  | fileNotFound
  | jsonDecode
  | operational
  | integrityError
  | typeError
deriving DecidableEq, Repr

/-- The two error classes of the spec: the first except block prints the
reading diagnostic, the second prints the database-creation diagnostic. -/
inductive ErrKind where
  | inputRead
  | outputWrite
deriving DecidableEq, Repr

/-- One row of the `poems` table, in the column order of the CREATE TABLE
statement (lines 44-53 of the script). -/
structure Row where
  id : String
  title : String
  author : String
  content : String
  firstLine : String
  sourceType : String
deriving DecidableEq, Repr

/-- The tuple bound to the INSERT statement for one poem
(lines 79-86 of the script). -/
def poemRow (p : Poem) : Row :=
  ⟨p.id?.getD "", p.title?.getD "", p.author?.getD "", p.text?.getD "",
    p.first_line?.getD "", "BUNDLED"⟩

/-- One `INSERT INTO poems ... VALUES (?,?,?,?,?,?)` (lines 87-91): the
primary key on `id` makes sqlite3 raise `IntegrityError` when the id is
already present; otherwise the row is appended. -/
def sqlInsert (t : List Row) (r : Row) : Except PyExn (List Row) :=
  if (t.map Row.id).contains r.id then .error .integrityError
  else .ok (t ++ [r])

/-- The inner loop `for poem in poems` (lines 78-92): insert each poem's
row in order, propagating the first exception. -/
def insertPoems : List Row → List Poem → Except PyExn (List Row)
  | t, [] => .ok t
  | t, p :: ps =>
    match sqlInsert t (poemRow p) with
    | .error e => .error e
    | .ok u => insertPoems u ps

/-- The outer loop `for collection in data['collections']` (lines 72-98),
with `poems = collection.get('poems', [])`. -/
def insertCollections : List Row → List Collection → Except PyExn (List Row)
  | t, [] => .ok t
  | t, c :: cs =>
    match insertPoems t (c.poems?.getD []) with
    | .error e => .error e
    | .ok u => insertCollections u cs

/-- The poems of a document in document order: every collection's poem
list, concatenated. -/
def allPoems (d : Document) : List Poem :=
  (d.collections?.getD []).flatMap fun c => c.poems?.getD []

/-- The rows the conversion writes for a document, in document order. -/
def rowsOf (d : Document) : List Row :=
  (allPoems d).map poemRow

/-- The primary-key values of a document's rows, in document order. -/
def rowIds (d : Document) : List String :=
  (allPoems d).map fun p => p.id?.getD ""

/-- The statistics report (lines 104-111): `COUNT(*)`,
`AVG(LENGTH(content))` (SQL NULL, hence `none`, on an empty table), and
`COUNT(DISTINCT author)`, all as aggregate queries over the table. -/
structure Stats where
  final_count : Nat
  avg_content_length : Option Rat
  unique_authors : Nat
deriving DecidableEq, Repr

/-- The three aggregate queries evaluated over a table state. -/
def statsOf (t : List Row) : Stats :=
  ⟨t.length,
    if t.length = 0 then none
    else some ((t.map fun r => (r.content.length : Rat)).sum / (t.length : Rat)),
    (t.map Row.author).dedup.length⟩

/-- Environment flags: which of the fallible I/O operations of the write
phase raise an exception in this run. All flags false is the normal
environment. -/
structure Env where
  removeRaises : Bool
  connectRaises : Bool
  schemaRaises : Bool
  commitRaises : Bool
  getsizeRaises : Bool
deriving DecidableEq, Repr

/-- The normal environment: no spurious I/O failure. -/
def okEnv : Env :=
  ⟨false, false, false, false, false⟩

/-- The state of the write phase at the moment it finishes or raises:
whether `conn` was ever opened, whether it has been closed by the body
itself (the in-line `conn.close()` of line 113), the durable content of
the output path (`none` = no file; `some rows` = a database file whose
committed `poems` rows are `rows`, the empty list when the table is absent
or empty), and the statistics when they were computed and reported. -/
structure WriteSt where
  connOpened : Bool
  connClosed : Bool
  fileState : Option (List Row)
  stats : Option Stats
deriving DecidableEq, Repr

/-- The body of the second try block (lines 35-129) without its except
handler: returns the write state together with the exception it raised,
if any. Uncommitted inserts never reach `fileState` because closing the
connection rolls them back. The `typeError` branch is line 124 formatting
a NULL average with `:.0f`, which happens exactly when the table is
empty. -/
def writeBody (env : Env) (existing : Option (List Row)) (d : Document) :
    WriteSt × Option PyExn :=
  if existing.isSome && env.removeRaises then
    (⟨false, false, existing, none⟩, some .operational)
  else if env.connectRaises then
    (⟨false, false, none, none⟩, some .operational)
  else if env.schemaRaises then
    (⟨true, false, some [], none⟩, some .operational)
  else
    match insertCollections [] (d.collections?.getD []) with
    | .error e => (⟨true, false, some [], none⟩, some e)
    | .ok t =>
      if env.commitRaises then
        (⟨true, false, some [], none⟩, some .operational)
      else if env.getsizeRaises then
        (⟨true, true, some t, none⟩, some .operational)
      else if (statsOf t).avg_content_length.isNone then
        (⟨true, true, some t, none⟩, some .typeError)
      else
        (⟨true, true, some t, some (statsOf t)⟩, none)

/-- The first try block (lines 25-32): open and parse the input file. -/
def readPhase : InputFile → Except PyExn Document
  | .missing => .error .fileNotFound
  | .malformed => .error .jsonDecode
  | .valid d => .ok d

/-- Everything `create_poems_database` leaves behind: its boolean return
value, which diagnostic class was printed (if any), the connection
handle's history, the durable output-file content, and the reported
statistics. -/
structure RunOutcome where
  success : Bool
  errKind : Option ErrKind
  connOpened : Bool
  connClosed : Bool
  fileState : Option (List Row)
  stats : Option Stats
deriving DecidableEq, Repr

/-- The function `create_poems_database` (lines 14-135). A read failure is
caught by the first handler (returns `False`, output untouched). A write
failure is caught by the second handler (lines 131-135), which closes the
connection when `'conn' in locals()` and returns `False`. Success returns
`True` with the committed rows and the printed statistics. -/
def create_poems_database (env : Env) (input : InputFile)
    (existing : Option (List Row)) : RunOutcome :=
  match readPhase input with
  | .error _ => ⟨false, some .inputRead, false, false, existing, none⟩
  | .ok d =>
    match writeBody env existing d with
    | (st, some _) =>
      ⟨false, some .outputWrite, st.connOpened,
        st.connOpened || st.connClosed, st.fileState, none⟩
    | (st, none) =>
      ⟨true, none, st.connOpened, st.connClosed, st.fileState, st.stats⟩

/-- What `main` leaves behind: the process exit code, the diagnostic class
printed, and the durable output-file content. -/
structure MainOutcome where
  exitCode : Nat
  errKind : Option ErrKind
  fileState : Option (List Row)
deriving DecidableEq, Repr

/-- The function `main` (lines 138-175): when the input file does not
exist it prints the file-not-found diagnostic and returns 1 without
calling the converter; otherwise it returns 0 or 1 according to the
converter's boolean result. -/
def main (env : Env) (input : InputFile) (existing : Option (List Row)) :
    MainOutcome :=
  match input with
  | .missing => ⟨1, some .inputRead, existing⟩
  | _ =>
    let o := create_poems_database env input existing
    ⟨if o.success then 0 else 1, o.errKind, o.fileState⟩

/-- Sample poem with every field present (the spec's worked scenario). -/
def pAlpha : Poem :=
  ⟨some "p1", some "T", some "A", some "Hello", some "Hello"⟩

/-- Sample poem lacking title, author and first line. -/
def pBeta : Poem :=
  ⟨some "p2", none, none, some "world!!", none⟩

/-- Sample document with one collection of two poems, distinct ids. -/
def docTwo : Document :=
  ⟨some [⟨some "C1", some [pAlpha, pBeta]⟩]⟩

/-- Sample document whose two poems share the id `"x"`. -/
def docDup : Document :=
  ⟨some [⟨none, some [⟨some "x", none, none, none, none⟩,
    ⟨some "x", none, none, none, none⟩]⟩]⟩

theorem poemRow_id (p : Poem) : (poemRow p).id = p.id?.getD "" :=
  rfl

theorem rowIds_eq (d : Document) :
    (allPoems d).map (fun p => (poemRow p).id) = rowIds d :=
  rfl

theorem insertPoems_ok (ps : List Poem) : ∀ t u,
    insertPoems t ps = .ok u → u = t ++ ps.map poemRow := by
  induction ps with
  | nil =>
    intro t u h
    simp only [insertPoems] at h
    cases h
    simp
  | cons p ps ih =>
    intro t u h
    simp only [insertPoems] at h
    cases hins : sqlInsert t (poemRow p) with
    | error e => rw [hins] at h; cases h
    | ok v =>
      rw [hins] at h
      have hv : v = t ++ [poemRow p] := by
        unfold sqlInsert at hins
        split at hins
        · cases hins
        · cases hins; rfl
      have := ih v u h
      subst hv
      simp [this]

theorem insertPoems_append (xs ys : List Poem) : ∀ t,
    insertPoems t (xs ++ ys) =
      match insertPoems t xs with
      | .error e => .error e
      | .ok u => insertPoems u ys := by
  induction xs with
  | nil => intro t; simp [insertPoems]
  | cons p xs ih =>
    intro t
    simp only [List.cons_append, insertPoems]
    cases sqlInsert t (poemRow p) with
    | error e => simp
    | ok u => simp [ih u]

theorem insertCollections_eq (cs : List Collection) : ∀ t,
    insertCollections t cs =
      insertPoems t (cs.flatMap fun c => c.poems?.getD []) := by
  induction cs with
  | nil => intro t; simp [insertCollections, insertPoems]
  | cons c cs ih =>
    intro t
    rw [List.flatMap_cons, insertPoems_append]
    simp only [insertCollections]
    cases insertPoems t (c.poems?.getD []) with
    | error e => simp
    | ok u => simp [ih u]

theorem sqlInsert_mem (t : List Row) (r : Row) (h : r.id ∈ t.map Row.id) :
    sqlInsert t r = .error .integrityError := by
  unfold sqlInsert
  simp [h]

theorem sqlInsert_not_mem (t : List Row) (r : Row) (h : r.id ∉ t.map Row.id) :
    sqlInsert t r = .ok (t ++ [r]) := by
  unfold sqlInsert
  simp [h]

theorem step_nodup (t : List Row) (r : Row) (hn : (t.map Row.id).Nodup)
    (hfresh : r.id ∉ t.map Row.id) : ((t ++ [r]).map Row.id).Nodup := by
  simp only [List.map_append, List.map_cons, List.map_nil]
  rw [List.nodup_append]
  refine ⟨hn, List.nodup_singleton _, ?_⟩
  intro a ha hb
  simp at hb
  rw [hb] at ha
  exact hfresh ha

theorem insertPoems_ok_of_nodup (ps : List Poem) : ∀ t,
    (t.map Row.id ++ ps.map fun p => (poemRow p).id).Nodup →
    insertPoems t ps = .ok (t ++ ps.map poemRow) := by
  induction ps with
  | nil => intro t h; simp [insertPoems]
  | cons p ps ih =>
    intro t h
    simp only [List.map_cons] at h
    rw [List.nodup_append] at h
    have hfresh : (poemRow p).id ∉ t.map Row.id := by
      intro hmem
      exact h.2.2 hmem (by simp)
    simp only [insertPoems, sqlInsert_not_mem t (poemRow p) hfresh,
      List.map_cons]
    have harr : ((t ++ [poemRow p]).map Row.id ++
        ps.map fun q => (poemRow q).id).Nodup := by
      rw [List.nodup_append]
      refine ⟨step_nodup t (poemRow p) h.1 hfresh, h.2.1.of_cons, ?_⟩
      intro a ha hb
      simp only [List.map_append, List.map_cons, List.map_nil,
        List.mem_append, List.mem_singleton] at ha
      cases ha with
      | inl hat => exact h.2.2 hat (by simp [hb])
      | inr hap =>
        have hcons := h.2.1
        rw [List.nodup_cons] at hcons
        exact hcons.1 (hap ▸ hb)
    rw [ih (t ++ [poemRow p]) harr]
    simp

theorem insertPoems_error_of_not_nodup (ps : List Poem) : ∀ t,
    (t.map Row.id).Nodup →
    ¬ (t.map Row.id ++ ps.map fun p => (poemRow p).id).Nodup →
    insertPoems t ps = .error .integrityError := by
  induction ps with
  | nil =>
    intro t hn hd
    exact absurd (by simpa using hn) hd
  | cons p ps ih =>
    intro t hn hd
    by_cases hmem : (poemRow p).id ∈ t.map Row.id
    · simp [insertPoems, sqlInsert_mem t (poemRow p) hmem]
    · simp only [insertPoems, sqlInsert_not_mem t (poemRow p) hmem]
      apply ih
      · exact step_nodup t (poemRow p) hn hmem
      · intro hcontra
        apply hd
        simp only [List.map_append, List.map_cons, List.map_nil,
          List.append_assoc, List.singleton_append] at hcontra
        simpa using hcontra

theorem insertCollections_run (d : Document) :
    insertCollections [] (d.collections?.getD []) =
      if (rowIds d).Nodup then .ok (rowsOf d)
      else .error .integrityError := by
  rw [insertCollections_eq]
  by_cases h : (rowIds d).Nodup
  · rw [if_pos h]
    have := insertPoems_ok_of_nodup (allPoems d) []
    simp only [List.map_nil, List.nil_append, rowIds_eq] at this
    exact (this h).trans (by simp [rowsOf, allPoems])
  · rw [if_neg h]
    have := insertPoems_error_of_not_nodup (allPoems d) []
    simp only [List.map_nil, List.nil_append, rowIds_eq,
      List.nodup_nil] at this
    exact this trivial h

theorem statsOf_avg_isNone (t : List Row) :
    (statsOf t).avg_content_length.isNone = true ↔ t = [] := by
  unfold statsOf
  by_cases h : t.length = 0
  · simp [h, List.length_eq_zero.mp h]
  · simp [h]
    intro hc
    exact h (by simp [hc])

theorem writeBody_snd_none (env : Env) (ex : Option (List Row)) (d : Document)
    (h : (writeBody env ex d).2 = none) :
    writeBody env ex d =
      (⟨true, true, some (rowsOf d), some (statsOf (rowsOf d))⟩, none) ∧
    (rowIds d).Nodup ∧ rowsOf d ≠ [] := by
  unfold writeBody at h ⊢
  rw [insertCollections_run] at h ⊢
  split at h
  next h1 => simp at h
  next h1 =>
    split at h
    next h2 => simp at h
    next h2 =>
      split at h
      next h3 => simp at h
      next h3 =>
        split at h
        next e heq => simp at h
        next t heq =>
          split at h
          next h4 => simp at h
          next h4 =>
            split at h
            next h5 => simp at h
            next h5 =>
              split at h
              next h6 => simp at h
              next h6 =>
                have hn : (rowIds d).Nodup := by
                  by_contra hc
                  rw [if_neg hc] at heq
                  cases heq
                rw [if_pos hn] at heq
                cases heq
                have hne : rowsOf d ≠ [] := by
                  intro hc
                  exact h6 ((statsOf_avg_isNone (rowsOf d)).mpr hc)
                refine ⟨?_, hn, hne⟩
                simp [h1, h2, h3, if_pos hn, h4, h5, h6]

theorem create_valid_success (env : Env) (d : Document) (ex : Option (List Row))
    (h : (create_poems_database env (.valid d) ex).success = true) :
    create_poems_database env (.valid d) ex =
      ⟨true, none, true, true, some (rowsOf d), some (statsOf (rowsOf d))⟩ := by
  simp only [create_poems_database, readPhase] at h ⊢
  rcases hwb : writeBody env ex d with ⟨st, exn⟩
  cases exn with
  | some e => rw [hwb] at h; simp at h
  | none =>
    have hchar := (writeBody_snd_none env ex d (by rw [hwb])).1
    rw [hwb] at hchar
    injection hchar with hst _
    subst hst
    rfl

theorem create_valid_success_nodup (env : Env) (d : Document)
    (ex : Option (List Row))
    (h : (create_poems_database env (.valid d) ex).success = true) :
    (rowIds d).Nodup ∧ rowsOf d ≠ [] := by
  simp only [create_poems_database, readPhase] at h
  rcases hwb : writeBody env ex d with ⟨st, exn⟩
  cases exn with
  | some e => rw [hwb] at h; simp at h
  | none => exact (writeBody_snd_none env ex d (by rw [hwb])).2

theorem writeBody_okEnv_dup (d : Document) (ex : Option (List Row))
    (h : ¬ (rowIds d).Nodup) :
    writeBody okEnv ex d = (⟨true, false, some [], none⟩, some .integrityError) := by
  unfold writeBody okEnv
  rw [insertCollections_run, if_neg h]
  simp

theorem writeBody_fileState (env : Env) (d : Document) :
    (writeBody env none d).1.fileState = none ∨
    (writeBody env none d).1.fileState = some [] ∨
    (writeBody env none d).1.fileState = some (rowsOf d) := by
  unfold writeBody
  rw [insertCollections_run]
  split
  next h1 => simp at h1
  next h1 =>
    split
    next h2 => left; rfl
    next h2 =>
      split
      next h3 => right; left; rfl
      next h3 =>
        split
        next e heq => right; left; rfl
        next t heq =>
          have ht : t = rowsOf d := by
            by_cases hn : (rowIds d).Nodup
            · rw [if_pos hn] at heq; cases heq; rfl
            · rw [if_neg hn] at heq; cases heq
          subst ht
          split
          next h4 => right; left; rfl
          next h4 =>
            split
            next h5 => right; right; rfl
            next h5 =>
              split
              next h6 => right; right; rfl
              next h6 => right; right; rfl

theorem writeBody_okEnv_existing (d : Document) (ex : Option (List Row)) :
    writeBody okEnv ex d = writeBody okEnv none d := by
  unfold writeBody okEnv
  simp

theorem create_fileState_eq (env : Env) (d : Document)
    (ex : Option (List Row)) :
    (create_poems_database env (.valid d) ex).fileState =
      (writeBody env ex d).1.fileState := by
  simp only [create_poems_database, readPhase]
  rcases hwb : writeBody env ex d with ⟨st, exn⟩
  cases exn <;> rfl

/-- C1: for every valid input document on which the conversion succeeds, the
number of rows in the output poems table equals the total number of poem
objects across all collections of the document, summed in document order. -/
theorem C1_row_count_eq_total_poems (env : Env) (d : Document)
    (ex : Option (List Row))
    (h : (create_poems_database env (.valid d) ex).success = true) :
    ∃ t, (create_poems_database env (.valid d) ex).fileState = some t ∧
      t.length =
        ((d.collections?.getD []).map fun c => (c.poems?.getD []).length).sum := by
  refine ⟨rowsOf d, by rw [create_valid_success env d ex h], ?_⟩
  unfold rowsOf allPoems
  rw [List.length_map, List.length_flatMap]
  rfl

/-- Witness for C1: the two-poem sample document converts to a table of two
rows, and two is the summed poem count of its single collection. -/
theorem C1_witness :
    ∃ t, (create_poems_database okEnv (.valid docTwo) none).fileState =
        some t ∧
      t.length = ((docTwo.collections?.getD []).map fun c =>
        (c.poems?.getD []).length).sum :=
  C1_row_count_eq_total_poems okEnv docTwo none (by rfl)

/-- C2: every output row is built by the fixed field mapping (id from id,
title from title, author from author, content from text, firstLine from
first_line, sourceType the constant), and any of the five input fields that
is absent yields the empty string in the corresponding output field. -/
theorem C2_field_mapping (env : Env) (d : Document) (ex : Option (List Row))
    (h : (create_poems_database env (.valid d) ex).success = true) :
    (create_poems_database env (.valid d) ex).fileState =
      some ((allPoems d).map fun p =>
        (⟨p.id?.getD "", p.title?.getD "", p.author?.getD "", p.text?.getD "",
          p.first_line?.getD "", "BUNDLED"⟩ : Row)) ∧
    ∀ p : Poem,
      (p.id? = none → (poemRow p).id = "") ∧
      (p.title? = none → (poemRow p).title = "") ∧
      (p.author? = none → (poemRow p).author = "") ∧
      (p.text? = none → (poemRow p).content = "") ∧
      (p.first_line? = none → (poemRow p).firstLine = "") := by
  constructor
  · rw [create_valid_success env d ex h]
    rfl
  · intro p
    refine ⟨?_, ?_, ?_, ?_, ?_⟩ <;> intro hp <;> simp [poemRow, hp]

/-- Witness for C2 at the two-poem sample document, whose second poem lacks
title, author and first line. -/
theorem C2_witness :
    (create_poems_database okEnv (.valid docTwo) none).fileState =
      some ((allPoems docTwo).map fun p =>
        (⟨p.id?.getD "", p.title?.getD "", p.author?.getD "", p.text?.getD "",
          p.first_line?.getD "", "BUNDLED"⟩ : Row)) ∧
    ∀ p : Poem,
      (p.id? = none → (poemRow p).id = "") ∧
      (p.title? = none → (poemRow p).title = "") ∧
      (p.author? = none → (poemRow p).author = "") ∧
      (p.text? = none → (poemRow p).content = "") ∧
      (p.first_line? = none → (poemRow p).firstLine = "") :=
  C2_field_mapping okEnv docTwo none (by rfl)

/-- C3: every row written to the output table has sourceType "BUNDLED":
every INSERT tuple carries the constant, and on a fresh output path every
row of the resulting file has it, in every environment and for every valid
input document. -/
theorem C3_sourceType_bundled :
    (∀ p : Poem, (poemRow p).sourceType = "BUNDLED") ∧
    ∀ (env : Env) (d : Document) (t : List Row),
      (create_poems_database env (.valid d) none).fileState = some t →
      ∀ r ∈ t, r.sourceType = "BUNDLED" := by
  constructor
  · intro p; rfl
  · intro env d t hfs r hr
    rw [create_fileState_eq] at hfs
    rcases writeBody_fileState env d with hw | hw | hw
    · rw [hw] at hfs; cases hfs
    · rw [hw] at hfs
      injection hfs with ht
      subst ht
      simp at hr
    · rw [hw] at hfs
      injection hfs with ht
      subst ht
      unfold rowsOf at hr
      rcases List.mem_map.mp hr with ⟨p, _, hpr⟩
      rw [← hpr]
      rfl

/-- Witness for C3: the constant on a sample INSERT tuple, and on a row of
the table produced from the sample document. -/
theorem C3_witness :
    (poemRow pAlpha).sourceType = "BUNDLED" ∧
    (poemRow pBeta).sourceType = "BUNDLED" :=
  ⟨C3_sourceType_bundled.1 pAlpha,
    C3_sourceType_bundled.2 okEnv docTwo (rowsOf docTwo) (by rfl)
      (poemRow pBeta) (by decide)⟩

/-- C4: evaluating the code at the failing input. On a document with no
collections key, in the normal environment, the table is created and
committed with zero rows, but the run returns False with the
database-creation diagnostic instead of True: on the empty table the
average-length query yields SQL NULL and line 124 of the script formats it
with a float format specifier, raising TypeError inside the try block. The
process exit code is therefore 1, not 0. -/
theorem C4_no_collections_fails :
    create_poems_database okEnv (.valid ⟨none⟩) none =
      ⟨false, some .outputWrite, true, true, some [], none⟩ ∧
    main okEnv (.valid ⟨none⟩) none = ⟨1, some .outputWrite, some []⟩ := by
  constructor <;> rfl

/-- C5: if two poem objects of a valid document share the same id, the run
fails with the OutputWriteError class diagnostic (the duplicate primary key
makes the INSERT raise IntegrityError): the conversion returns a failure
result rather than upserting or skipping the duplicate. -/
theorem C5_duplicate_id_fails (d : Document) (ex : Option (List Row))
    (h : ¬ (rowIds d).Nodup) :
    (create_poems_database okEnv (.valid d) ex).success = false ∧
    (create_poems_database okEnv (.valid d) ex).errKind =
      some ErrKind.outputWrite := by
  simp only [create_poems_database, readPhase]
  rw [writeBody_okEnv_dup d ex h]
  exact ⟨rfl, rfl⟩

/-- Witness for C5: the sample document whose two poems share the id x. -/
theorem C5_witness :
    (create_poems_database okEnv (.valid docDup) none).success = false ∧
    (create_poems_database okEnv (.valid docDup) none).errKind =
      some ErrKind.outputWrite :=
  C5_duplicate_id_fails docDup none (by decide)

/-- C6: on success the reported statistics are the aggregate queries over
the final committed table: the reported stats equal statsOf of the final
row set, the row count is its length, the distinct-author count is the
number of distinct author values present in the table, the table's author
column is the input authors defaulted to the empty string, and whenever
some poem lacked an author the empty string occurs as an author value of
the final table. -/
theorem C6_stats_over_final_table (env : Env) (d : Document)
    (ex : Option (List Row))
    (h : (create_poems_database env (.valid d) ex).success = true) :
    (create_poems_database env (.valid d) ex).fileState = some (rowsOf d) ∧
    (create_poems_database env (.valid d) ex).stats =
      some (statsOf (rowsOf d)) ∧
    (statsOf (rowsOf d)).final_count = (rowsOf d).length ∧
    (statsOf (rowsOf d)).unique_authors =
      ((rowsOf d).map Row.author).dedup.length ∧
    (rowsOf d).map Row.author =
      (allPoems d).map (fun p => p.author?.getD "") ∧
    ((∃ p ∈ allPoems d, p.author? = none) →
      "" ∈ (rowsOf d).map Row.author) := by
  have hc := create_valid_success env d ex h
  refine ⟨by rw [hc], by rw [hc], rfl, rfl, ?_, ?_⟩
  · unfold rowsOf
    rw [List.map_map]
    rfl
  · rintro ⟨p, hp, hpa⟩
    unfold rowsOf
    rw [List.map_map]
    refine List.mem_map.mpr ⟨p, hp, ?_⟩
    simp [Function.comp, poemRow, hpa]

/-- Witness for C6 at the two-poem sample document, whose second poem lacks
an author. -/
theorem C6_witness :
    (create_poems_database okEnv (.valid docTwo) none).fileState =
      some (rowsOf docTwo) ∧
    (create_poems_database okEnv (.valid docTwo) none).stats =
      some (statsOf (rowsOf docTwo)) ∧
    (statsOf (rowsOf docTwo)).final_count = (rowsOf docTwo).length ∧
    (statsOf (rowsOf docTwo)).unique_authors =
      ((rowsOf docTwo).map Row.author).dedup.length ∧
    (rowsOf docTwo).map Row.author =
      (allPoems docTwo).map (fun p => p.author?.getD "") ∧
    ((∃ p ∈ allPoems docTwo, p.author? = none) →
      "" ∈ (rowsOf docTwo).map Row.author) :=
  C6_stats_over_final_table okEnv docTwo none (by rfl)

/-- C7: the conversion's entire outcome is independent of whatever file was
previously at the output path (it is unconditionally removed before
writing), so a second run on the same input produces the identical row
set: the output is fully replaced, never appended to. -/
theorem C7_rerun_replaces (d : Document) (ex : Option (List Row)) :
    create_poems_database okEnv (.valid d) ex =
      create_poems_database okEnv (.valid d) none ∧
    (create_poems_database okEnv (.valid d)
        (create_poems_database okEnv (.valid d) ex).fileState).fileState =
      (create_poems_database okEnv (.valid d) ex).fileState := by
  have hkey : ∀ e, create_poems_database okEnv (.valid d) e =
      create_poems_database okEnv (.valid d) none := by
    intro e
    simp only [create_poems_database, readPhase]
    rw [writeBody_okEnv_existing d e]
  refine ⟨hkey ex, ?_⟩
  rw [hkey ((create_poems_database okEnv (.valid d) ex).fileState), hkey ex]

/-- C8: when the input path does not exist, main exits with code 1 and the
input-read diagnostic class, and whatever was at the output path is left
untouched, in every environment and for every prior output state. -/
theorem C8_missing_input (env : Env) (ex : Option (List Row)) :
    main env .missing ex = ⟨1, some .inputRead, ex⟩ :=
  rfl

/-- C9: on every exit path of the conversion, in every environment and for
every input and prior output state, if the output connection was opened
then it has been closed by the time the function returns, either by the
in-line close on the success path or by the close in the except handler. -/
theorem C9_conn_closed (env : Env) (input : InputFile)
    (ex : Option (List Row))
    (h : (create_poems_database env input ex).connOpened = true) :
    (create_poems_database env input ex).connClosed = true := by
  cases input with
  | missing => simp [create_poems_database, readPhase] at h
  | malformed => simp [create_poems_database, readPhase] at h
  | valid d =>
    simp only [create_poems_database, readPhase] at h ⊢
    rcases hwb : writeBody env ex d with ⟨st, exn⟩
    cases exn with
    | some e =>
      rw [hwb] at h
      have h2 : st.connOpened = true := h
      show (st.connOpened || st.connClosed) = true
      rw [h2]
      rfl
    | none =>
      have hchar := (writeBody_snd_none env ex d (by rw [hwb])).1
      rw [hwb] at hchar
      injection hchar with hst _
      subst hst
      rfl

/-- Witness for C9: a successful run on the sample document opens the
connection and ends with it closed. -/
theorem C9_witness :
    (create_poems_database okEnv (.valid docTwo) none).connClosed = true :=
  C9_conn_closed okEnv (.valid docTwo) none (by rfl)

/-- C10: the conversion routine never escapes with an exception: for every
environment, input state and prior output content it returns a boolean,
True exactly when both the read phase and the write body ran without
raising, and False exactly otherwise, because each phase's raises are all
caught by the enclosing except handler. -/
theorem C10_total_boolean (env : Env) (input : InputFile)
    (ex : Option (List Row)) :
    ((create_poems_database env input ex).success = true ↔
      ∃ d, readPhase input = .ok d ∧ (writeBody env ex d).2 = none) ∧
    ((create_poems_database env input ex).success = false ↔
      ¬ ∃ d, readPhase input = .ok d ∧ (writeBody env ex d).2 = none) := by
  cases input with
  | missing => simp [create_poems_database, readPhase]
  | malformed => simp [create_poems_database, readPhase]
  | valid d =>
    simp only [create_poems_database, readPhase]
    rcases hwb : writeBody env ex d with ⟨st, exn⟩
    cases exn with
    | some e => simp [hwb]
    | none => simp [hwb]

end Poetica
